import Mathlib

/-!
Shallow embedding of the zod-storage repository (a validated persistence
layer over browser Web Storage) and proofs about its claims.

The embedding follows the source files:
  src/core/zodStorage.ts   (get / set / remove / init with onFailure policies)
  src/utils/getStorageObject.ts
  src/storage.ts           (createLocalStorage: validate-before-write variant)
  src/types (SafeStorage descriptor type, SafeStorageGetOptions)

JavaScript values that can cross the JSON serialization boundary are
modelled by the inductive type Json (numbers restricted to integers; the
serializer/deserializer is an external collaborator of the library, modelled
here by an executable stringifier and parser).  The possibly-undefined JS
values (the optional defaultValue of a descriptor, the argument that init
forwards to set) are modelled by Option Json, none standing for undefined.
Web Storage is modelled as two association lists of string entries, one per
backend, with explicit state passing.
-/

/-- JSON-representable JavaScript values (numbers restricted to integers). -/
inductive Json where
  | null : Json
  | bool (b : Bool) : Json
  | num (n : Int) : Json
  | str (s : String) : Json
  | arr (elems : List Json) : Json
  | obj (fields : List (String × Json)) : Json

/-- Decimal digits of a natural number, most significant first (fuel-driven). -/
def natReprAux : Nat → Nat → List Char
  | 0, _ => []
  | fuel + 1, n =>
      if n < 10 then [Nat.digitChar n]
      else natReprAux fuel (n / 10) ++ [Nat.digitChar (n % 10)]

/-- Decimal representation of a natural number. -/
def natRepr (n : Nat) : String := String.mk (natReprAux (n + 1) n)

/-- Decimal representation of an integer, as JSON.stringify prints integers. -/
def intRepr : Int → String
  | Int.ofNat m => natRepr m
  | Int.negSucc m => "-" ++ natRepr (m + 1)

/-- Escape one character as inside a JSON string literal. -/
def escapeChar (c : Char) : String :=
  if c = '"' then "\\\""
  else if c = '\\' then "\\\\"
  else if c = '\n' then "\\n"
  else if c = '\t' then "\\t"
  else if c = '\r' then "\\r"
  else String.singleton c

/-- Escape the characters of a JSON string literal body. -/
def escapeString (s : String) : String := String.join (s.data.map escapeChar)

mutual

/-- Model of JSON.stringify on JSON-representable values. -/
def Json.stringify : Json → String
  | Json.null => "null"
  | Json.bool true => "true"
  | Json.bool false => "false"
  | Json.num n => intRepr n
  | Json.str s => "\"" ++ escapeString s ++ "\""
  | Json.arr xs => "[" ++ stringifyList xs ++ "]"
  | Json.obj fs => "\x7b" ++ stringifyFields fs ++ "\x7d"

/-- Comma-separated stringification of array elements. -/
def stringifyList : List Json → String
  | [] => ""
  | [x] => Json.stringify x
  | x :: y :: xs => Json.stringify x ++ "," ++ stringifyList (y :: xs)

/-- Comma-separated stringification of object fields. -/
def stringifyFields : List (String × Json) → String
  | [] => ""
  | [(k, v)] => "\"" ++ escapeString k ++ "\":" ++ Json.stringify v
  | (k, v) :: f :: fs =>
      "\"" ++ escapeString k ++ "\":" ++ Json.stringify v ++ "," ++ stringifyFields (f :: fs)

end

/-- Whitespace skipping for the JSON parser. -/
def skipWs : List Char → List Char
  | [] => []
  | c :: cs => if c = ' ' || c = '\n' || c = '\t' || c = '\r' then skipWs cs else c :: cs

/-- Parse the body of a JSON string literal after the opening quote; returns
the decoded string and the input after the closing quote. -/
def parseStringBody : List Char → String → Option (String × List Char)
  | [], _ => none
  | c :: cs, acc =>
      if c = '"' then some (acc, cs)
      else if c = '\\' then
        match cs with
        | [] => none
        | e :: cs2 =>
            if e = '"' then parseStringBody cs2 (acc ++ "\"")
            else if e = '\\' then parseStringBody cs2 (acc ++ "\\")
            else if e = '/' then parseStringBody cs2 (acc ++ "/")
            else if e = 'n' then parseStringBody cs2 (acc ++ "\n")
            else if e = 't' then parseStringBody cs2 (acc ++ "\t")
            else if e = 'r' then parseStringBody cs2 (acc ++ "\r")
            else none
      else parseStringBody cs (acc ++ String.singleton c)

/-- Parse a run of decimal digits into a natural number accumulator. -/
def parseDigits : List Char → Nat → Bool → Option (Nat × List Char)
  | [], acc, seen => if seen then some (acc, []) else none
  | c :: cs, acc, seen =>
      if c.isDigit then parseDigits cs (acc * 10 + (c.toNat - 48)) true
      else if seen then some (acc, c :: cs) else none

mutual

/-- Fuel-driven parser for a JSON value (model of JSON.parse). -/
def parseVal : Nat → List Char → Option (Json × List Char)
  | 0, _ => none
  | fuel + 1, input =>
      match skipWs input with
      | [] => none
      | 'n' :: 'u' :: 'l' :: 'l' :: rest => some (Json.null, rest)
      | 't' :: 'r' :: 'u' :: 'e' :: rest => some (Json.bool true, rest)
      | 'f' :: 'a' :: 'l' :: 's' :: 'e' :: rest => some (Json.bool false, rest)
      | '"' :: rest =>
          match parseStringBody rest "" with
          | some (s, rest2) => some (Json.str s, rest2)
          | none => none
      | '[' :: rest =>
          (match skipWs rest with
           | ']' :: rest2 => some (Json.arr [], rest2)
           | other =>
               match parseElems fuel other with
               | some (xs, rest2) =>
                   match skipWs rest2 with
                   | ']' :: rest3 => some (Json.arr xs, rest3)
                   | _ => none
               | none => none)
      | '\x7b' :: rest =>
          (match skipWs rest with
           | '\x7d' :: rest2 => some (Json.obj [], rest2)
           | other =>
               match parseMembers fuel other with
               | some (fs, rest2) =>
                   match skipWs rest2 with
                   | '\x7d' :: rest3 => some (Json.obj fs, rest3)
                   | _ => none
               | none => none)
      | '-' :: rest =>
          (match parseDigits rest 0 false with
           | some (n, rest2) => some (Json.num (-(n : Int)), rest2)
           | none => none)
      | c :: rest =>
          if c.isDigit then
            match parseDigits (c :: rest) 0 false with
            | some (n, rest2) => some (Json.num (n : Int), rest2)
            | none => none
          else none

/-- Parse one or more comma-separated JSON array elements. -/
def parseElems : Nat → List Char → Option (List Json × List Char)
  | 0, _ => none
  | fuel + 1, input =>
      match parseVal fuel input with
      | some (x, rest) =>
          match skipWs rest with
          | ',' :: rest2 =>
              (match parseElems fuel rest2 with
               | some (xs, rest3) => some (x :: xs, rest3)
               | none => none)
          | other => some ([x], other)
      | none => none

/-- Parse one or more comma-separated JSON object members. -/
def parseMembers : Nat → List Char → Option (List (String × Json) × List Char)
  | 0, _ => none
  | fuel + 1, input =>
      match skipWs input with
      | '"' :: rest =>
          (match parseStringBody rest "" with
           | some (k, rest2) =>
               (match skipWs rest2 with
                | ':' :: rest3 =>
                    (match parseVal fuel rest3 with
                     | some (v, rest4) =>
                         (match skipWs rest4 with
                          | ',' :: rest5 =>
                              (match parseMembers fuel rest5 with
                               | some (fs, rest6) => some ((k, v) :: fs, rest6)
                               | none => none)
                          | other => some ([(k, v)], other))
                     | none => none)
                | _ => none)
           | none => none)
      | _ => none

end

/-- Model of JSON.parse: either the decoded value or a SyntaxError message. -/
def Json.parse (s : String) : Except String Json :=
  match parseVal (s.length + 1) s.data with
  | some (j, rest) =>
      if skipWs rest = [] then Except.ok j
      else Except.error "Unexpected token in JSON"
  | none => Except.error "Unexpected token in JSON"

/-- One Web Storage area: an association list of string entries.
Models the external key-addressed string store. -/
structure Store where
  entries : List (String × String)

/-- Replace the entry for a key, or append it if absent. -/
def setEntry : List (String × String) → String → String → List (String × String)
  | [], k, v => [(k, v)]
  | (k0, v0) :: rest, k, v =>
      if k0 = k then (k, v) :: rest else (k0, v0) :: setEntry rest k v

/-- Storage.getItem: the stored string, or none (JS null) when absent. -/
def Store.getItem (s : Store) (k : String) : Option String :=
  (s.entries.find? (fun p => p.1 = k)).map (fun p => p.2)

/-- Storage.setItem: store a string under a key, overwriting unconditionally. -/
def Store.setItem (s : Store) (k v : String) : Store :=
  Store.mk (setEntry s.entries k v)

/-- Storage.removeItem: delete the entry for a key (no-op when absent). -/
def Store.removeItem (s : Store) (k : String) : Store :=
  Store.mk (s.entries.filter (fun p => p.1 ≠ k))

/-- The storage backend selector, source type StorageType = local | session.
(Constructor names differ from the source strings because local is a Lean
keyword.) -/
inductive StorageType where
  | localArea : StorageType
  | sessionArea : StorageType
deriving DecidableEq

/-- The two independent Web Storage areas of a browsing context. -/
structure Web where
  localStore : Store
  sessionStore : Store

/-- src/utils/getStorageObject.ts: returns sessionStorage when the selector
is session, localStorage otherwise. -/
def getStorageObject (type : StorageType) (w : Web) : Store :=
  match type with
  | StorageType.sessionArea => w.sessionStore
  | StorageType.localArea => w.localStore

/-- State-passing counterpart of mutating the storage object returned by
getStorageObject: write the updated area back into the browsing context. -/
def putStorageObject (type : StorageType) (w : Web) (s : Store) : Web :=
  match type with
  | StorageType.sessionArea => Web.mk w.localStore s
  | StorageType.localArea => Web.mk s w.sessionStore

/-- Structured failure reported by a zod schema (result.error of safeParse):
its issues and its message string. -/
structure ZodErrorData where
  issues : List String
  message : String

/-- Result of schema.safeParse: success with the validated (possibly
transformed) data, or failure with a ZodError. -/
inductive SafeParseResult where
  | success (data : Json) : SafeParseResult
  | failure (error : ZodErrorData) : SafeParseResult

/-- The descriptor type SafeStorage<T> from src/types: key, zod schema
(field name value in the source), defaultValue and backend selector.
The schema is modelled extensionally as the function safeParse denotes;
defaultValue and storage are Option because the source marks them optional
(none models the JS undefined of an absent field). -/
structure SafeStorage where
  key : String
  value : Json → SafeParseResult
  defaultValue : Option Json
  storage : Option StorageType

/-- The onFailure policy values of SafeStorageGetOptions. -/
inductive OnFailure where
  | nullPolicy : OnFailure
  | defaultPolicy : OnFailure
  | throwPolicy : OnFailure
deriving DecidableEq

/-- src/options.ts SafeStorageGetOptions: an optional onFailure policy. -/
structure SafeStorageGetOptions where
  onFailure : Option OnFailure

/-- JavaScript runtime errors relevant to the library, distinguished by kind:
a SyntaxError from JSON.parse, a ZodError from a schema, or a plain Error
constructed with new Error(message). -/
inductive JsError where
  | syntaxError (message : String) : JsError
  | zodError (issues : List String) (message : String) : JsError
  | error (message : String) : JsError

/-- The message property of a JS error. -/
def JsError.message : JsError → String
  | JsError.syntaxError m => m
  | JsError.zodError _ m => m
  | JsError.error m => m

/-- Model of err instanceof Error: SyntaxError, ZodError and Error all
extend Error, so every modelled error is an Error instance. -/
def isErrorInstance : JsError → Bool := fun _ => true

/-- A value returned by get as seen by JavaScript: null, undefined, or a
JSON-representable value. -/
inductive JsOut where
  | nullOut : JsOut
  | undefOut : JsOut
  | valOut (j : Json) : JsOut

/-- The JS truthiness test !raw on a string-or-null: true for null and for
the empty string. -/
def isFalsyRaw : Option String → Bool
  | none => true
  | some s => s = ""

/-- Returning defaultValue as a JS value (an absent default is undefined). -/
def jsOutOfDefault : Option Json → JsOut
  | none => JsOut.undefOut
  | some j => JsOut.valOut j

/-- The shared failure-policy result for the non-throwing policies, from the
source line: return onFailure === 'default' ? defaultValue : null. -/
def defaultOrNull (onFailure : OnFailure) (defaultValue : Option Json) : JsOut :=
  if onFailure = OnFailure.defaultPolicy then jsOutOfDefault defaultValue else JsOut.nullOut

/-- The catch block of zodStorage.get: under the throw policy it wraps the
caught error (err instanceof Error) in a new plain Error with prefix
SafeStorage parsing error, otherwise it resolves to defaultValue or null. -/
def catchBlock (onFailure : OnFailure) (defaultValue : Option Json) (err : JsError) :
    Except JsError JsOut :=
  if onFailure = OnFailure.throwPolicy then
    if isErrorInstance err then
      Except.error (JsError.error ("SafeStorage parsing error: " ++ err.message))
    else
      Except.error (JsError.error "SafeStorage: Unknown error")
  else
    Except.ok (defaultOrNull onFailure defaultValue)

/-- JSON.stringify at the top level of a possibly-undefined argument:
stringify(undefined) is undefined (none); otherwise a string. -/
def jsonStringifyTop : Option Json → Option String
  | none => none
  | some j => some (Json.stringify j)

/-- WebIDL DOMString coercion applied by Storage.setItem to its argument:
undefined is coerced to the string undefined. -/
def toDOMString : Option String → String
  | none => "undefined"
  | some s => s

/-- The body of zodStorage.get after the storage object has been resolved
(src/core/zodStorage.ts lines 23-61).  The try/catch of the source is made
explicit: the only statements that can throw inside the try are JSON.parse
(a SyntaxError) and the line throw result.error under the throw policy (the
ZodError), and both are caught by the catch block, which is modelled by
catchBlock. -/
def getFromStore (storageConfig : SafeStorage) (options : Option SafeStorageGetOptions)
    (storageObj : Store) : Except JsError JsOut :=
  let key := storageConfig.key
  let schema := storageConfig.value
  let defaultValue := storageConfig.defaultValue
  let onFailure :=
    (match options with
     | none => none
     | some o => o.onFailure).getD OnFailure.nullPolicy
  let raw := storageObj.getItem key
  if isFalsyRaw raw then
    Except.ok JsOut.nullOut
  else
    match Json.parse (raw.getD "") with
    | Except.error msg =>
        catchBlock onFailure defaultValue (JsError.syntaxError msg)
    | Except.ok parsed =>
        match schema parsed with
        | SafeParseResult.success d => Except.ok (JsOut.valOut d)
        | SafeParseResult.failure e =>
            if onFailure = OnFailure.throwPolicy then
              catchBlock onFailure defaultValue (JsError.zodError e.issues e.message)
            else
              Except.ok (defaultOrNull onFailure defaultValue)

namespace ZodStorage

/-- zodStorage.get: resolve the backend from the descriptor (default local),
read and decode the raw string, validate, and apply the failure policy.
The returned Web state is unchanged because getItem is the only storage
call the source makes. -/
def get (storageConfig : SafeStorage) (options : Option SafeStorageGetOptions)
    (w : Web) : Except JsError JsOut × Web :=
  let st := storageConfig.storage.getD StorageType.localArea
  (getFromStore storageConfig options (getStorageObject st w), w)

/-- zodStorage.set: resolve the backend (default local) and store
JSON.stringify(data) under the key, overwriting unconditionally.  The data
argument is Option Json because init forwards a possibly-undefined
defaultValue here. -/
def set (storageConfig : SafeStorage) (data : Option Json) (w : Web) : Unit × Web :=
  let st := storageConfig.storage.getD StorageType.localArea
  let storageObj := getStorageObject st w
  ((), putStorageObject st w
        (storageObj.setItem storageConfig.key (toDOMString (jsonStringifyTop data))))

/-- zodStorage.remove: resolve the backend (default local) and remove the
entry for the key. -/
def remove (storageConfig : SafeStorage) (w : Web) : Unit × Web :=
  let st := storageConfig.storage.getD StorageType.localArea
  let storageObj := getStorageObject st w
  ((), putStorageObject st w (storageObj.removeItem storageConfig.key))

/-- zodStorage.init: set(storageConfig, defaultValue), with no check that a
default is configured. -/
def init (storageConfig : SafeStorage) (w : Web) : Unit × Web :=
  set storageConfig storageConfig.defaultValue w

end ZodStorage

/-- src/storage.ts createLocalStorage: the full key is prefix:key when a
truthy (nonempty) prefix option is given, else the key alone.  The source
field name is avoided here for a keyword-like clash and called pfx. -/
structure StorageOptions where
  pfx : Option String

/-- The fullKey computation of createLocalStorage (JS truthiness: an empty
prefix string selects the bare key). -/
def fullKeyOf (key : String) (options : StorageOptions) : String :=
  match options.pfx with
  | some p => if p = "" then key else p ++ ":" ++ key
  | none => key

/-- The set closure of createLocalStorage (src/storage.ts lines 27-30):
schema.parse(value) throws the ZodError when validation fails, in which
case setItem is never reached and the store is unchanged; on success the
validated value is stringified and written. -/
def createLocalStorageSet (key : String) (schema : Json → SafeParseResult)
    (options : StorageOptions) (value : Json) (st : Store) : Except JsError Unit × Store :=
  match schema value with
  | SafeParseResult.failure e =>
      (Except.error (JsError.zodError e.issues e.message), st)
  | SafeParseResult.success validated =>
      (Except.ok (), st.setItem (fullKeyOf key options) (Json.stringify validated))

/-- An Accessor operation together with its non-descriptor arguments, used
to quantify over the four operations at once. -/
inductive Op where
  | opGet (options : Option SafeStorageGetOptions) : Op
  | opSet (data : Option Json) : Op
  | opRemove : Op
  | opInit : Op

/-- The result of an Accessor operation (get returns a value or error, the
other three return unit). -/
inductive OpResult where
  | getR (r : Except JsError JsOut) : OpResult
  | unitR : OpResult

/-- Run one Accessor operation on a descriptor and browsing context. -/
def applyOp : Op → SafeStorage → Web → OpResult × Web
  | Op.opGet options, d, w =>
      let r := ZodStorage.get d options w
      (OpResult.getR r.1, r.2)
  | Op.opSet data, d, w => (OpResult.unitR, (ZodStorage.set d data w).2)
  | Op.opRemove, d, w => (OpResult.unitR, (ZodStorage.remove d w).2)
  | Op.opInit, d, w => (OpResult.unitR, (ZodStorage.init d w).2)

/-- After setEntry, looking the key up finds exactly the new entry. -/
theorem find?_setEntry (l : List (String × String)) (k v : String) :
    (setEntry l k v).find? (fun p => p.1 = k) = some (k, v) := by
  induction l with
  | nil => simp [setEntry]
  | cons hd tl ih =>
      obtain ⟨k0, v0⟩ := hd
      by_cases h : k0 = k
      · simp [setEntry, h]
      · simp [setEntry, h, ih]

/-- Reading a key immediately after setItem on that key yields the stored
string. -/
theorem getItem_setItem (s : Store) (k v : String) :
    (s.setItem k v).getItem k = some v := by
  simp [Store.getItem, Store.setItem, find?_setEntry]

/-- Resolving a backend right after writing that same backend back yields
the written store. -/
theorem getStorageObject_putStorageObject (t : StorageType) (w : Web) (s : Store) :
    getStorageObject t (putStorageObject t w s) = s := by
  cases t <;> rfl

/-- A model zod schema accepting exactly numbers (identity transform),
used as a concrete fixture. -/
def numberSchema : Json → SafeParseResult := fun j =>
  match j with
  | Json.num n => SafeParseResult.success (Json.num n)
  | _ => SafeParseResult.failure (ZodErrorData.mk ["expected number"] "Expected number")

/-- Fixture descriptor: key count, number schema, default 0, backend omitted. -/
def descNum : SafeStorage :=
  SafeStorage.mk "count" numberSchema (some (Json.num 0)) none

/-- Fixture descriptor with no configured default value. -/
def descNoDefault : SafeStorage :=
  SafeStorage.mk "count" numberSchema none none

/-- Fixture descriptor whose schema rejects its own default value. -/
def descBadDefault : SafeStorage :=
  SafeStorage.mk "count" numberSchema (some (Json.str "fallback")) none

/-- Fixture descriptor targeting the session backend. -/
def descSessionNum : SafeStorage :=
  SafeStorage.mk "count" numberSchema (some (Json.num 0)) (some StorageType.sessionArea)

/-- Both backends empty. -/
def emptyWeb : Web := Web.mk (Store.mk []) (Store.mk [])

/-- Local backend holding a schema-invalid (but well-formed JSON) entry
under the fixture key. -/
def schemaCorruptWeb : Web := Web.mk (Store.mk [("count", "\"abc\"")]) (Store.mk [])

/-- Local backend holding a malformed (non-JSON) entry under the fixture key. -/
def decodeCorruptWeb : Web := Web.mk (Store.mk [("count", "not json")]) (Store.mk [])

/-- Get options selecting the throw policy. -/
def throwOpts : Option SafeStorageGetOptions :=
  some (SafeStorageGetOptions.mk (some OnFailure.throwPolicy))

/-- Get options selecting the default policy. -/
def defaultOpts : Option SafeStorageGetOptions :=
  some (SafeStorageGetOptions.mk (some OnFailure.defaultPolicy))

/-- A stored raw string that fails decoding or validation, at the resolved
backend of a descriptor: the common hypothesis of the corrupted-read
lemmas. -/
def CorruptRead (d : SafeStorage) (w : Web) (r : String) : Prop :=
  (getStorageObject (d.storage.getD StorageType.localArea) w).getItem d.key = some r ∧
  r ≠ "" ∧
  ((∃ m, Json.parse r = Except.error m) ∨
   (∃ j e, Json.parse r = Except.ok j ∧ d.value j = SafeParseResult.failure e))

/-- On a corrupted read (present, nonempty, failing decode or validation),
get with no options resolves to null. -/
theorem getFromStore_corrupt_noopts (d : SafeStorage) (st : Store) (r : String)
    (hr : st.getItem d.key = some r) (hne : r ≠ "")
    (hfail : (∃ m, Json.parse r = Except.error m) ∨
             (∃ j e, Json.parse r = Except.ok j ∧ d.value j = SafeParseResult.failure e)) :
    getFromStore d none st = Except.ok JsOut.nullOut := by
  simp only [getFromStore, hr, Option.getD_some, isFalsyRaw, hne]
  rcases hfail with ⟨m, hm⟩ | ⟨j, e, hj, he⟩
  · simp [hm, catchBlock, defaultOrNull]
  · simp [hj, he, catchBlock, defaultOrNull]

/-- On a corrupted read, get under the default policy resolves to the
descriptor's defaultValue, as a JS value. -/
theorem getFromStore_corrupt_default (d : SafeStorage) (st : Store) (r : String)
    (hr : st.getItem d.key = some r) (hne : r ≠ "")
    (hfail : (∃ m, Json.parse r = Except.error m) ∨
             (∃ j e, Json.parse r = Except.ok j ∧ d.value j = SafeParseResult.failure e)) :
    getFromStore d defaultOpts st = Except.ok (jsOutOfDefault d.defaultValue) := by
  simp only [getFromStore, hr, Option.getD_some, isFalsyRaw, hne, defaultOpts]
  rcases hfail with ⟨m, hm⟩ | ⟨j, e, hj, he⟩
  · simp [hm, catchBlock, defaultOrNull]
  · simp [hj, he, catchBlock, defaultOrNull]

/-- On a corrupted read, get under the throw policy signals a plain Error
wrapping the underlying message. -/
theorem getFromStore_corrupt_throw (d : SafeStorage) (st : Store) (r : String)
    (hr : st.getItem d.key = some r) (hne : r ≠ "")
    (hfail : (∃ m, Json.parse r = Except.error m) ∨
             (∃ j e, Json.parse r = Except.ok j ∧ d.value j = SafeParseResult.failure e)) :
    ∃ m, getFromStore d throwOpts st
        = Except.error (JsError.error ("SafeStorage parsing error: " ++ m)) := by
  simp only [getFromStore, hr, Option.getD_some, isFalsyRaw, hne, throwOpts]
  rcases hfail with ⟨m, hm⟩ | ⟨j, e, hj, he⟩
  · exact ⟨m, by simp [hm, catchBlock, JsError.message, isErrorInstance]⟩
  · exact ⟨e.message, by simp [hj, he, catchBlock, JsError.message, isErrorInstance]⟩

/-- C1: over one and the same corrupted storage state (a stored raw string
that fails JSON decoding or schema validation), the three failure policies
of get are deterministic: no options yields null, the default policy yields
the descriptor's defaultValue, and the throw policy signals an error; none
of the three calls changes the storage state. -/
theorem policy_determinism_on_failure (d : SafeStorage) (w : Web) (r : String)
    (h : CorruptRead d w r) :
    (ZodStorage.get d none w).1 = Except.ok JsOut.nullOut ∧
    (ZodStorage.get d defaultOpts w).1 = Except.ok (jsOutOfDefault d.defaultValue) ∧
    (∃ m, (ZodStorage.get d throwOpts w).1
        = Except.error (JsError.error ("SafeStorage parsing error: " ++ m))) ∧
    (ZodStorage.get d none w).2 = w ∧
    (ZodStorage.get d defaultOpts w).2 = w ∧
    (ZodStorage.get d throwOpts w).2 = w := by
  obtain ⟨hr, hne, hfail⟩ := h
  exact ⟨getFromStore_corrupt_noopts d _ r hr hne hfail,
         getFromStore_corrupt_default d _ r hr hne hfail,
         getFromStore_corrupt_throw d _ r hr hne hfail,
         rfl, rfl, rfl⟩

/-- Witness for C1 at the concrete descriptor descNum and the stored raw
string of schemaCorruptWeb (valid JSON, fails the number schema). -/
theorem policy_determinism_on_failure_witness :
    (ZodStorage.get descNum none schemaCorruptWeb).1 = Except.ok JsOut.nullOut ∧
    (ZodStorage.get descNum defaultOpts schemaCorruptWeb).1
      = Except.ok (JsOut.valOut (Json.num 0)) ∧
    (∃ m, (ZodStorage.get descNum throwOpts schemaCorruptWeb).1
        = Except.error (JsError.error ("SafeStorage parsing error: " ++ m))) ∧
    (ZodStorage.get descNum none schemaCorruptWeb).2 = schemaCorruptWeb ∧
    (ZodStorage.get descNum defaultOpts schemaCorruptWeb).2 = schemaCorruptWeb ∧
    (ZodStorage.get descNum throwOpts schemaCorruptWeb).2 = schemaCorruptWeb :=
  policy_determinism_on_failure descNum schemaCorruptWeb "\"abc\""
    ⟨rfl, by decide,
     Or.inr ⟨Json.str "abc", ZodErrorData.mk ["expected number"] "Expected number", rfl, rfl⟩⟩

/-- Local backend holding the empty string under the fixture key (the
empty-string edge case of absence). -/
def emptyStringWeb : Web := Web.mk (Store.mk [("count", "")]) (Store.mk [])

/-- C3: when the key has no entry in the selected backend, or the stored
string is empty, get returns null under every onFailure policy; absence
never substitutes the default and never throws. -/
theorem absence_is_null (d : SafeStorage) (o : Option SafeStorageGetOptions) (w : Web)
    (h : (getStorageObject (d.storage.getD StorageType.localArea) w).getItem d.key = none ∨
         (getStorageObject (d.storage.getD StorageType.localArea) w).getItem d.key = some "") :
    (ZodStorage.get d o w).1 = Except.ok JsOut.nullOut := by
  show getFromStore d o _ = _
  rcases h with h | h <;> simp [getFromStore, h, isFalsyRaw]

/-- Witness for C3: an absent key under the null and default policies, and
an empty stored string under the throw policy, all return null. -/
theorem absence_is_null_witness :
    (ZodStorage.get descNum none emptyWeb).1 = Except.ok JsOut.nullOut ∧
    (ZodStorage.get descNum defaultOpts emptyWeb).1 = Except.ok JsOut.nullOut ∧
    (ZodStorage.get descNum throwOpts emptyStringWeb).1 = Except.ok JsOut.nullOut :=
  ⟨absence_is_null descNum none emptyWeb (Or.inl rfl),
   absence_is_null descNum defaultOpts emptyWeb (Or.inl rfl),
   absence_is_null descNum throwOpts emptyStringWeb (Or.inr rfl)⟩

/-- C9: get performs no write or removal on any key of either backend: the
entire storage state after any get call is the state before it. -/
theorem get_performs_no_write (d : SafeStorage) (o : Option SafeStorageGetOptions) (w : Web) :
    (ZodStorage.get d o w).2 = w := rfl

/-- C10: on a corrupted read under the default policy, the descriptor's
defaultValue is returned exactly as stored in the descriptor: the schema is
never consulted about it (the descriptor and hence its schema are
arbitrary here, including schemas that reject or transform the default). -/
theorem default_policy_returns_raw_default (d : SafeStorage) (w : Web) (r : String)
    (h : CorruptRead d w r) :
    (ZodStorage.get d defaultOpts w).1 = Except.ok (jsOutOfDefault d.defaultValue) :=
  getFromStore_corrupt_default d _ r h.1 h.2.1 h.2.2

/-- Witness for C10: the schema of descBadDefault rejects the descriptor's
own defaultValue, yet the default policy returns that value unchanged. -/
theorem default_policy_returns_raw_default_witness :
    numberSchema (Json.str "fallback")
      = SafeParseResult.failure (ZodErrorData.mk ["expected number"] "Expected number") ∧
    (ZodStorage.get descBadDefault defaultOpts decodeCorruptWeb).1
      = Except.ok (JsOut.valOut (Json.str "fallback")) :=
  ⟨rfl,
   default_policy_returns_raw_default descBadDefault decodeCorruptWeb "not json"
     ⟨rfl, by decide, Or.inl ⟨"Unexpected token in JSON", rfl⟩⟩⟩

/-- C2 counterexample: zodStorage.set writes a value the schema rejects,
silently.  The number schema fails on the string, yet after set the backend
holds its serialization (and set has no failure channel at all in
src/core/zodStorage.ts: it stringifies and calls setItem unconditionally). -/
theorem set_writes_schema_rejected_value :
    numberSchema (Json.str "oops")
      = SafeParseResult.failure (ZodErrorData.mk ["expected number"] "Expected number") ∧
    (ZodStorage.set descNum (some (Json.str "oops")) emptyWeb).2.localStore.getItem "count"
      = some "\"oops\"" :=
  ⟨rfl, rfl⟩

/-- C2 amended: the validate-before-write contract holds for the
createLocalStorage variant (src/storage.ts): when the value fails the
schema, set signals the ZodError synchronously and the store is unchanged
(no write happens). -/
theorem createLocalStorageSet_validate_before_write (key : String)
    (schema : Json → SafeParseResult) (options : StorageOptions) (v : Json)
    (st : Store) (e : ZodErrorData)
    (h : schema v = SafeParseResult.failure e) :
    createLocalStorageSet key schema options v st
      = (Except.error (JsError.zodError e.issues e.message), st) := by
  simp [createLocalStorageSet, h]

/-- Witness for the amended C2 at concrete inputs. -/
theorem createLocalStorageSet_validate_before_write_witness :
    createLocalStorageSet "user" numberSchema (StorageOptions.mk none) (Json.str "bad")
        (Store.mk [])
      = (Except.error (JsError.zodError ["expected number"] "Expected number"),
         Store.mk []) :=
  createLocalStorageSet_validate_before_write "user" numberSchema
    (StorageOptions.mk none) (Json.str "bad") (Store.mk [])
    (ZodErrorData.mk ["expected number"] "Expected number") rfl

/-- C4: under the throw policy both failure causes reach the caller as the
same plain Error kind with the same message wrapper.  The ZodError thrown
for a validation failure is itself caught by the catch block of get and
re-wrapped as new Error with the SafeStorage parsing error text, so its
structured issues are dropped and the caller cannot distinguish a
validation failure from a decode failure by kind. -/
theorem throw_policy_wraps_validation_and_decode_alike :
    (ZodStorage.get descNum throwOpts schemaCorruptWeb).1
      = Except.error (JsError.error ("SafeStorage parsing error: " ++ "Expected number")) ∧
    (ZodStorage.get descNum throwOpts decodeCorruptWeb).1
      = Except.error
          (JsError.error ("SafeStorage parsing error: " ++ "Unexpected token in JSON")) :=
  ⟨rfl, rfl⟩

/-- C5 counterexample: init on a descriptor with no configured defaultValue
does not signal MissingDefault (there is no such failure path in the code);
it completes and stores the string undefined, the DOMString coercion of
JSON.stringify(undefined). -/
theorem init_without_default_signals_nothing :
    descNoDefault.defaultValue = none ∧
    (ZodStorage.init descNoDefault emptyWeb).2.localStore.getItem "count"
      = some "undefined" :=
  ⟨rfl, rfl⟩

/-- C5 amended: with an absent defaultValue, init just forwards undefined to
set, writing the string undefined under the key, and get under the default
policy on a corrupted read returns undefined; neither signals a
MissingDefault error. -/
theorem missing_default_degrades_silently (d : SafeStorage) (w : Web) (r : String)
    (hd : d.defaultValue = none) (h : CorruptRead d w r) :
    ZodStorage.init d w = ZodStorage.set d none w ∧
    (getStorageObject (d.storage.getD StorageType.localArea) (ZodStorage.init d w).2).getItem
        d.key = some "undefined" ∧
    (ZodStorage.get d defaultOpts w).1 = Except.ok JsOut.undefOut := by
  refine ⟨by simp [ZodStorage.init, hd], ?_, ?_⟩
  · simp [ZodStorage.init, ZodStorage.set, hd, jsonStringifyTop, toDOMString,
          getStorageObject_putStorageObject, getItem_setItem]
  · have hdef := getFromStore_corrupt_default d _ r h.1 h.2.1 h.2.2
    rw [hd] at hdef
    exact hdef

/-- Witness for the amended C5 at the concrete descriptor without default
over a corrupted local entry. -/
theorem missing_default_degrades_silently_witness :
    ZodStorage.init descNoDefault decodeCorruptWeb
      = ZodStorage.set descNoDefault none decodeCorruptWeb ∧
    (getStorageObject StorageType.localArea
        (ZodStorage.init descNoDefault decodeCorruptWeb).2).getItem "count"
      = some "undefined" ∧
    (ZodStorage.get descNoDefault defaultOpts decodeCorruptWeb).1
      = Except.ok JsOut.undefOut :=
  missing_default_degrades_silently descNoDefault decodeCorruptWeb "not json" rfl
    ⟨rfl, by decide, Or.inl ⟨"Unexpected token in JSON", rfl⟩⟩

/-- A stringification that parses back to its value is in particular not the
empty string (the empty string does not parse). -/
theorem stringify_ne_empty_of_parses (v : Json)
    (hcodec : Json.parse (Json.stringify v) = Except.ok v) : Json.stringify v ≠ "" := by
  intro hemp
  rw [hemp] at hcodec
  exact Except.noConfusion
    ((rfl : Json.parse "" = Except.error "Unexpected token in JSON") ▸ hcodec)

/-- C6: round-trip.  For a value the schema accepts (with transformed result
tv, the transform being idempotent) and for which the external serializer is
reversible, get immediately after set returns the value modulo the
schema-applied transform. -/
theorem roundtrip_get_after_set (d : SafeStorage) (v tv : Json) (w : Web)
    (hacc : d.value v = SafeParseResult.success tv)
    (hidem : d.value tv = SafeParseResult.success tv)
    (hcodec : Json.parse (Json.stringify v) = Except.ok v) :
    (ZodStorage.get d none ((ZodStorage.set d (some v) w).2)).1
      = Except.ok (JsOut.valOut tv) := by
  have hne := stringify_ne_empty_of_parses v hcodec
  show getFromStore d none _ = _
  simp [ZodStorage.set, jsonStringifyTop, toDOMString, getStorageObject_putStorageObject,
        getFromStore, getItem_setItem, isFalsyRaw, hne, hcodec, hacc]

/-- Witness for C6 at a concrete accepted value. -/
theorem roundtrip_get_after_set_witness :
    descNum.value (Json.num 42) = SafeParseResult.success (Json.num 42) ∧
    (ZodStorage.get descNum none ((ZodStorage.set descNum (some (Json.num 42)) emptyWeb).2)).1
      = Except.ok (JsOut.valOut (Json.num 42)) :=
  ⟨rfl, roundtrip_get_after_set descNum (Json.num 42) (Json.num 42) emptyWeb rfl rfl rfl⟩

/-- C7: init is set of the descriptor's defaultValue (definitionally, for
every state), and it overwrites unconditionally: after set of any X
followed by init, get returns the defaultValue, for any prior state. -/
theorem init_equiv_set_default_and_overwrites (d : SafeStorage) (dv : Json)
    (X : Option Json) (w : Web)
    (hdv : d.defaultValue = some dv)
    (hfix : d.value dv = SafeParseResult.success dv)
    (hcodec : Json.parse (Json.stringify dv) = Except.ok dv) :
    (∀ w2, ZodStorage.init d w2 = ZodStorage.set d d.defaultValue w2) ∧
    (ZodStorage.get d none ((ZodStorage.init d ((ZodStorage.set d X w).2)).2)).1
      = Except.ok (JsOut.valOut dv) := by
  refine ⟨fun w2 => rfl, ?_⟩
  have hne := stringify_ne_empty_of_parses dv hcodec
  show getFromStore d none _ = _
  simp [ZodStorage.init, ZodStorage.set, hdv, jsonStringifyTop, toDOMString,
        getStorageObject_putStorageObject, getFromStore, getItem_setItem, isFalsyRaw,
        hne, hcodec, hfix]

/-- Witness for C7: set 7, init, get yields the default 0, not 7. -/
theorem init_equiv_set_default_and_overwrites_witness :
    (ZodStorage.get descNum none
        ((ZodStorage.init descNum
            ((ZodStorage.set descNum (some (Json.num 7)) emptyWeb).2)).2)).1
      = Except.ok (JsOut.valOut (Json.num 0)) :=
  (init_equiv_set_default_and_overwrites descNum (Json.num 0) (some (Json.num 7)) emptyWeb
    rfl rfl rfl).2

/-- The body of get after backend resolution depends only on the key, the
schema and the defaultValue of the descriptor, never on its selector. -/
theorem getFromStore_ignores_selector (d : SafeStorage) (z : Option StorageType)
    (o : Option SafeStorageGetOptions) (st : Store) :
    getFromStore (SafeStorage.mk d.key d.value d.defaultValue z) o st
      = getFromStore d o st := rfl

/-- C8: backend isolation.  A session descriptor's operations neither read
the local backend (the result is unchanged if the local store is replaced)
nor modify it (the local store after the operation is the input one), and
symmetrically for a local or omitted selector with respect to the session
backend; and an omitted selector behaves exactly as the local selector. -/
theorem backend_isolation (op : Op) (d : SafeStorage)
    (l₁ l₂ s l s₁ s₂ : Store) (w : Web) :
    (d.storage = some StorageType.sessionArea →
      (applyOp op d (Web.mk l₁ s)).1 = (applyOp op d (Web.mk l₂ s)).1 ∧
      (applyOp op d (Web.mk l₁ s)).2.localStore = l₁ ∧
      (applyOp op d (Web.mk l₁ s)).2.sessionStore
        = (applyOp op d (Web.mk l₂ s)).2.sessionStore) ∧
    ((d.storage = some StorageType.localArea ∨ d.storage = none) →
      (applyOp op d (Web.mk l s₁)).1 = (applyOp op d (Web.mk l s₂)).1 ∧
      (applyOp op d (Web.mk l s₁)).2.sessionStore = s₁ ∧
      (applyOp op d (Web.mk l s₁)).2.localStore
        = (applyOp op d (Web.mk l s₂)).2.localStore) ∧
    (d.storage = none →
      applyOp op (SafeStorage.mk d.key d.value d.defaultValue (some StorageType.localArea)) w
        = applyOp op d w) := by
  refine ⟨fun h => ?_, fun h => ?_, fun h => ?_⟩
  · cases op <;>
      simp [applyOp, ZodStorage.get, ZodStorage.set, ZodStorage.remove, ZodStorage.init,
            h, getStorageObject, putStorageObject]
  · rcases h with h | h <;> cases op <;>
      simp [applyOp, ZodStorage.get, ZodStorage.set, ZodStorage.remove, ZodStorage.init,
            h, getStorageObject, putStorageObject]
  · cases op <;>
      simp [applyOp, ZodStorage.get, ZodStorage.set, ZodStorage.remove, ZodStorage.init,
            h, getStorageObject, putStorageObject, getFromStore_ignores_selector]

/-- Witness for C8: a session set leaves a populated local store intact, a
local-descriptor set leaves a populated session store intact, and remove on
an omitted selector equals remove with the local selector. -/
theorem backend_isolation_witness :
    (applyOp (Op.opSet (some (Json.num 1))) descSessionNum
        (Web.mk (Store.mk [("count", "7")]) (Store.mk []))).2.localStore
      = Store.mk [("count", "7")] ∧
    (applyOp (Op.opSet (some (Json.num 1))) descNum
        (Web.mk (Store.mk []) (Store.mk [("count", "7")]))).2.sessionStore
      = Store.mk [("count", "7")] ∧
    applyOp Op.opRemove
        (SafeStorage.mk descNum.key descNum.value descNum.defaultValue
          (some StorageType.localArea)) emptyWeb
      = applyOp Op.opRemove descNum emptyWeb :=
  ⟨((backend_isolation (Op.opSet (some (Json.num 1))) descSessionNum
      (Store.mk [("count", "7")]) (Store.mk []) (Store.mk []) (Store.mk [])
      (Store.mk []) (Store.mk []) emptyWeb).1 rfl).2.1,
   ((backend_isolation (Op.opSet (some (Json.num 1))) descNum
      (Store.mk []) (Store.mk []) (Store.mk []) (Store.mk [])
      (Store.mk [("count", "7")]) (Store.mk []) emptyWeb).2.1 (Or.inr rfl)).2.1,
   (backend_isolation Op.opRemove descNum (Store.mk []) (Store.mk []) (Store.mk [])
      (Store.mk []) (Store.mk []) (Store.mk []) emptyWeb).2.2 rfl⟩
